import Mathlib

/-!
Verification of the `ci-gate` webhook gatekeeper (`src/index.js`).

Shallow embedding: every remote call that the program *issues* is recorded as
an `Effect`; every remote call whose *result* the program consumes is passed
in as an explicit argument (the oracle result of that call).  A handler is
therefore embedded as a pure function from its inputs and oracle results to
the list of effects it issues, in program order.  Machine concurrency does not
arise: the JavaScript runtime is single-threaded and cooperative, so the code
between two `await` suspension points runs atomically; the sweep-coalescing
flags are modelled as a step relation whose steps are exactly those atomic
segments.

JavaScript string primitives used by the program are modelled structurally
over `List Char` (all strings involved are ASCII), so that every definition
is kernel-executable on concrete inputs.
-/

namespace CiGate

/-- Model of JavaScript `String.prototype.toLowerCase` for the ASCII label
names this program compares. -/
def toLowerStr (s : String) : String := String.mk (s.data.map Char.toLower)

/-- Helper for `splitOnChar`: accumulates the current field (reversed). -/
def splitOnCharAux (c : Char) : List Char → List Char → List String
  | [], acc => [String.mk acc.reverse]
  | ch :: rest, acc =>
    if ch = c then String.mk acc.reverse :: splitOnCharAux c rest []
    else splitOnCharAux c rest (ch :: acc)

/-- Model of JavaScript `String.prototype.split` with a one-character
separator: `"".split(',') = ['']`, `"a,b".split(',') = ['a','b']`. -/
def splitOnChar (c : Char) (s : String) : List String := splitOnCharAux c s.data []

/-- Model of JavaScript `Array.prototype.join` with a string separator. -/
def joinWith (sep : String) : List String → String
  | [] => ""
  | [x] => x
  | x :: y :: xs => x ++ sep ++ joinWith sep (y :: xs)

/-- `STATUS_CONTEXT` constant (src/index.js line 13): the gate context under
which commit statuses are posted. -/
def STATUS_CONTEXT : String := "ci-gate"

/-- `CI_LABEL` constant (line 14): the human-granted approval label. -/
def CI_LABEL : String := "CI"

/-- `NOCI_LABEL` constant (line 15): the suppression label. -/
def NOCI_LABEL : String := "noCI"

/-- `AUTOMERGE_LABEL` constant (line 16): the auto-merge opt-in label. -/
def AUTOMERGE_LABEL : String := "automerge"

/-- An outbound remote call that mutates external state (or creates a build).
Reads (label fetches, PR info, combined status, pipeline lookup) are not
effects; their results are passed to the embedded functions as arguments. -/
inductive Effect where
  | setStatus (sha : String) (state : String) (context : String)
      (description : String) (targetUrl : Option String)
  | createBuild (pipeline : String) (branch : String) (commit : String)
      (message : String) (affectedFiles : String)
  | removeLabelCall (label : String)
  | createComment (body : String)
  | merge (sha : String) (commitMessage : String) (mergeMethod : String)
  deriving DecidableEq, Repr

/-- Is this effect a build-creation call to the CI backend? -/
def Effect.isCreateBuild : Effect → Bool
  | .createBuild _ _ _ _ _ => true
  | _ => false

/-- Is this effect an issue-comment creation? -/
def Effect.isCreateComment : Effect → Bool
  | .createComment _ => true
  | _ => false

/-- Is this effect a PR merge call? -/
def Effect.isMerge : Effect → Bool
  | .merge _ _ _ => true
  | _ => false

/-- `prHasLabel` (lines 159-164): fetches the PR's labels and compares
case-insensitively.  `labels` is the list of label names returned by the
platform. -/
def prHasLabel (labels : List String) (labelName : String) : Bool :=
  (labels.map (fun l => toLowerStr l)).contains (toLowerStr labelName)

/-- Model of the platform's `issue.removeLabelAsync` call: removing a label
that is not on the issue fails with the error message "Label does not exist"
(the error string the platform client produces, matched verbatim by an
earlier revision of `prRemoveLabel` kept in this repository's history). -/
def removeLabelAsync (labels : List String) (labelName : String) :
    Except String Unit :=
  if labels.contains labelName then Except.ok () else
    Except.error "Label does not exist"

/-- `prRemoveLabel` (lines 293-306): issues the removal call, catches *any*
error (logging it) and returns `false`; on success returns `true`.  The
result type `Except String Bool` makes a hypothetical propagated error
expressible (`Except.error`); the function itself always returns `Except.ok`
because its `catch` clause is unconditional. -/
def prRemoveLabel (removeResult : Except String Unit) : Except String Bool :=
  match removeResult with
  | .ok _ => Except.ok true
  | .error _ => Except.ok false

/-- `userInCiWhitelist` (lines 166-176): returns `true` if the collaborator
lookup succeeded with a truthy result; a lookup error is caught and logged;
in all other cases falls through to membership in the comma-separated
`CI_USER_WHITELIST` environment string (`wl`). -/
def userInCiWhitelist (collaboratorsResult : Except String Bool)
    (wl : String) (user : String) : Bool :=
  match collaboratorsResult with
  | .ok b => if b then true else (splitOnChar ',' wl).contains user
  | .error _ => (splitOnChar ',' wl).contains user

/-- `pipelineInPublicLogWhitelist` (lines 288-291): membership of `pipeline`
in the comma-separated `BUILDKITE_PIPELINE_PUBLIC_LOG_WHITELIST` environment
string (`wl`). -/
def pipelineInPublicLogWhitelist (wl : String) (pipeline : String) : Bool :=
  (splitOnChar ',' wl).contains pipeline

/-- Model of Node's `path.basename` for the slash-separated repository
`full_name` strings this program feeds it: the last nonempty `/`-separated
component (the whole string when there is none). -/
def pathBasename (p : String) : String :=
  ((splitOnChar '/' p).filter (fun s => s ≠ "")).getLastD p

/-- Model of `.replace(/\./g, '-')` (line 120): every dot becomes a dash. -/
def replaceDots (s : String) : String :=
  String.mk (s.data.map (fun c => if c = '.' then '-' else c))

/-- `triggerPullRequestCI` (lines 97-150).  Oracle arguments: `labels` is the
PR's current label list, `prFiles` the filenames changed by the PR, and
`pipelineExists` whether the pipeline lookup by slug returned a pipeline. -/
def triggerPullRequestCI (repoName : String) (prNumber : Nat) (commit : String)
    (labels : List String) (prFiles : List String) (pipelineExists : Bool) :
    List Effect :=
  if prHasLabel labels NOCI_LABEL then
    [Effect.setStatus commit "failure" STATUS_CONTEXT
      ("Remove " ++ NOCI_LABEL ++ " label to continue") none]
  else
    let branch := "pull/" ++ toString prNumber ++ "/head"
    let message := "Pull Request #" ++ toString prNumber ++ " - " ++
      String.mk (commit.data.take 8)
    let affectedFiles := joinWith ":" prFiles
    let pipelineName := replaceDots (pathBasename repoName)
    let buildEffects :=
      if pipelineExists then
        [Effect.createBuild pipelineName branch commit message affectedFiles]
      else []
    let description :=
      if pipelineExists then "Pull Request accepted for CI"
      else pipelineName ++ " CI pipeline not present"
    buildEffects
      ++ [Effect.setStatus commit "success" STATUS_CONTEXT description none]
      ++ [Effect.removeLabelCall CI_LABEL]

/-- Is `c` in the ASCII range `a`-`z` (regex class `[a-z]`)? -/
def isLowerAlpha (c : Char) : Bool := 'a' ≤ c && c ≤ 'z'

/-- Is `c` in the regex class `[a-z-]`? -/
def isPipelineChar (c : Char) : Bool := isLowerAlpha c || c == '-'

/-- Is `c` in the regex character class written `[1-9[0-9]` in the source
(line 319)?  As written, the class contains the digits and the literal
character `[` (the intended closing bracket after `1-9` is missing). -/
def isBuildNumChar (c : Char) : Bool := c.isDigit || c == '['

/-- Does `s` match `[a-z-]+` in full? -/
def matchLowerDash (s : String) : Bool :=
  !s.data.isEmpty && s.data.all isPipelineChar

/-- Does `s` match `[1-9[0-9]+` in full (one or more digit-or-bracket
characters, see `isBuildNumChar`)? -/
def matchDigitBracket (s : String) : Bool :=
  !s.data.isEmpty && s.data.all isBuildNumChar

/-- Does `s` match `[a-z]+` in full? -/
def matchLowerAlpha (s : String) : Bool :=
  !s.data.isEmpty && s.data.all isLowerAlpha

/-- Model of JavaScript `Number()` applied to a matched build segment: an
all-digit string converts to the number it denotes; any segment containing
`[` yields `NaN`, modelled as `none`. -/
def parseNat (s : String) : Option Nat :=
  if !s.data.isEmpty && s.data.all Char.isDigit then
    some (s.data.foldl (fun n c => 10 * n + (c.toNat - 48)) 0)
  else none

/-- The `buildNumber` field computed at line 327: either `Number(seg)` (a
number, `none` for NaN) or the branch alias following `latest/`. -/
inductive BuildNumber where
  | num (n : Option Nat)
  | branch (aliasName : String)
  deriving DecidableEq, Repr

/-- The truthy result of `isBuildkitePublicLogUrl`. -/
structure BuildInfo where
  pipeline : String
  buildNumber : BuildNumber
  deriving DecidableEq, Repr

/-- Model of `url.startsWith(head)` followed by `url.slice(head.length)`:
`some` of the remainder when `head` leads `s`, else `none`. -/
def stripHead (head s : String) : Option String :=
  if head.data.isPrefixOf s.data then
    some (String.mk (s.data.drop head.data.length))
  else none

/-- `isBuildkitePublicLogUrl` (lines 308-329): `none` models the JS `false`
(including the non-string case, `url = none`).  After the org prefix, the
remainder must match `^([a-z-]+)\/builds\/([1-9[0-9]+|latest\/[a-z]+)$`;
splitting on `/` decomposes this exactly, since neither `[a-z-]+` nor
`[1-9[0-9]+` nor `[a-z]+` can contain `/`. -/
def isBuildkitePublicLogUrl (orgSlug : String) (url : Option String) :
    Option BuildInfo :=
  match url with
  | none => none
  | some u =>
    match stripHead ("https://buildkite.com/" ++ orgSlug ++ "/") u with
    | none => none
    | some rest =>
      match splitOnChar '/' rest with
      | [p, b2, b3] =>
        if b2 = "builds" && matchLowerDash p && matchDigitBracket b3 then
          some { pipeline := p, buildNumber := BuildNumber.num (parseNat b3) }
        else none
      | [p, b2, b3, b4] =>
        if b2 = "builds" && b3 = "latest" && matchLowerDash p &&
            matchLowerAlpha b4 then
          some { pipeline := p, buildNumber := BuildNumber.branch b4 }
        else none
      | _ => none

/-- The fields of a `status` webhook payload destructured at lines 365-373;
`full_name` stands for `repository.full_name`. -/
structure StatusPayload where
  context : String
  description : String
  name : String
  full_name : String
  sha : String
  state : String
  target_url : Option String
  deriving DecidableEq, Repr

/-- The URL-rewriting half of `onGithubStatusUpdate` (lines 375-388): when
the repository is not in `PUBLIC_PIPELINE_REPOS` and the target URL is a
recognized build-backend log URL, re-post the status with the same state,
context and description but the same-origin proxy target URL; otherwise post
nothing. -/
def statusUpdateRewrite (publicPipelineRepos : List String)
    (publicUrlRoot orgSlug : String) (p : StatusPayload) : List Effect :=
  match p.target_url with
  | some u =>
    if !(publicPipelineRepos.contains p.full_name)
        && (isBuildkitePublicLogUrl orgSlug (some u)).isSome then
      [Effect.setStatus p.sha p.state p.context p.description
        (some (publicUrlRoot ++ "/buildkite_public_log?" ++ u))]
    else []
  | none => []

/-- The PR fields consumed by `autoMergePullRequest` (line 200): `state`,
`mergeable` (the platform tri-state, `none` = JS `null` = not yet computed)
and `head.sha`. -/
structure PrInfo where
  state : String
  mergeable : Option Bool
  headSha : String
  deriving DecidableEq, Repr

/-- The combined CI status fetched at line 228: aggregate `state` and the
list of individual status entries (only their count matters; entries are
identified by their context strings). -/
structure CombinedStatus where
  state : String
  statuses : List String
  deriving DecidableEq, Repr

/-- `autoMergePullRequest` (lines 194-262).  Oracle arguments: `info` is the
fetched PR info, `labels` the PR's current label list (also determining
whether the auto-merge label removal succeeds, via `removeLabelAsync`), and
`combined` the combined status of the head commit. -/
def autoMergePullRequest (info : PrInfo) (labels : List String)
    (combined : CombinedStatus) : List Effect :=
  if info.state ≠ "open" then []
  else if !(prHasLabel labels AUTOMERGE_LABEL) then []
  else match info.mergeable with
  | none => []
  | some false =>
    Effect.removeLabelCall AUTOMERGE_LABEL ::
      (match prRemoveLabel (removeLabelAsync labels AUTOMERGE_LABEL) with
        | Except.ok true =>
          [Effect.createComment
            ":broken_heart: Unable to automerge due to merge conflict"]
        | _ => [])
  | some true =>
    match combined.state with
    | "success" =>
      if combined.statuses.length < 2 then []
      else [Effect.merge info.headSha "automerge" "rebase"]
    | "failure" =>
      Effect.removeLabelCall AUTOMERGE_LABEL ::
        (match prRemoveLabel (removeLabelAsync labels AUTOMERGE_LABEL) with
          | Except.ok true =>
            [Effect.createComment
              ":broken_heart: Unable to automerge due to CI failure"]
          | _ => [])
    | _ => []

/-- The process-wide sweep-coalescing state (lines 358-359): the two global
flags, plus two ghost counters: `running` counts sweeps currently in flight
and `started` counts sweeps ever started. -/
structure SweepState where
  busy : Bool
  pending : Bool
  running : Nat
  started : Nat
  deriving DecidableEq, Repr

/-- Process start: both flags false, no sweeps. -/
def initSweepState : SweepState :=
  { busy := false, pending := false, running := 0, started := 0 }

/-- The synchronous flag segment of `onGithubStatusUpdate` (lines 390-397),
which runs atomically up to the `await` launching a sweep: set `pending`;
if `busy`, return; otherwise set `busy`, enter the loop, clear `pending`
and launch a sweep. -/
def statusEventStep (s : SweepState) : SweepState :=
  let s1 := { s with pending := true }
  if s1.busy then s1
  else { busy := true, pending := false, running := s1.running + 1, started := s1.started + 1 }

/-- The atomic continuation after an in-flight sweep's `await` returns
(lines 396-406): re-test the loop condition; if `pending`, clear it and
launch the next sweep; otherwise clear `busy` and exit the loop.  When no
sweep is in flight there is no such continuation, so the step is the
identity. -/
def sweepFinishStep (s : SweepState) : SweepState :=
  if s.running = 0 then s
  else if s.pending then { s with pending := false, started := s.started + 1 }
  else { s with busy := false, running := s.running - 1 }

/-- The two kinds of atomic step the flag protocol takes. -/
inductive SweepAction where
  | statusEvent
  | sweepFinish
  deriving DecidableEq, Repr

/-- One atomic step of the coalescing protocol. -/
def sweepStep (s : SweepState) : SweepAction → SweepState
  | .statusEvent => statusEventStep s
  | .sweepFinish => sweepFinishStep s

/-- Run a sequence of atomic steps from a state. -/
def sweepRun (s : SweepState) (acts : List SweepAction) : SweepState :=
  acts.foldl sweepStep s

/-- The coalescing invariant: at most one sweep in flight, `busy` tracks it
exactly, and `pending` is only ever set while a sweep is in flight. -/
def SweepInv (s : SweepState) : Prop :=
  s.running ≤ 1 ∧ (s.busy = true ↔ s.running = 1) ∧
    (s.pending = true → s.busy = true)

/-- A burst: one status event (launching a sweep), five further status
events arriving while that sweep is in flight, then the completions. -/
def burstTrace : List SweepAction :=
  [SweepAction.statusEvent] ++ List.replicate 5 SweepAction.statusEvent ++
    [SweepAction.sweepFinish, SweepAction.sweepFinish]

/-- Helper: exact membership implies the case-insensitive label check
succeeds. -/
theorem prHasLabel_of_mem {labels : List String} {name : String}
    (h : name ∈ labels) : prHasLabel labels name = true := by
  unfold prHasLabel
  exact List.elem_eq_true_of_mem (List.mem_map_of_mem _ h)

/-- Helper: the description posted in the suppression branch, spelled out. -/
theorem noci_description_spelled :
    "Remove " ++ NOCI_LABEL ++ " label to continue" =
      "Remove noCI label to continue" := by decide

/-- C1: if the PR carries the suppression label `noCI`, `triggerPullRequestCI`
issues exactly one commit status on the head commit — context `ci-gate`,
state `failure`, description naming `noCI` — and no build-creation call. -/
theorem noci_label_suppresses_ci (repoName : String) (prNumber : Nat)
    (commit : String) (labels prFiles : List String) (pipelineExists : Bool)
    (h : NOCI_LABEL ∈ labels) :
    triggerPullRequestCI repoName prNumber commit labels prFiles
        pipelineExists =
      [Effect.setStatus commit "failure" "ci-gate"
        "Remove noCI label to continue" none] ∧
    (triggerPullRequestCI repoName prNumber commit labels prFiles
        pipelineExists).filter Effect.isCreateBuild = [] := by
  have hl : prHasLabel labels NOCI_LABEL = true := prHasLabel_of_mem h
  have h1 : triggerPullRequestCI repoName prNumber commit labels prFiles
      pipelineExists =
      [Effect.setStatus commit "failure" "ci-gate"
        "Remove noCI label to continue" none] := by
    unfold triggerPullRequestCI
    rw [hl, if_pos rfl, noci_description_spelled]
    rfl
  refine ⟨h1, ?_⟩
  rw [h1]
  rfl

/-- C1 witness: concrete instantiation with the `noCI` label present. -/
theorem noci_label_suppresses_ci_witness :
    NOCI_LABEL ∈ ["noCI"] ∧
    triggerPullRequestCI "org/repo" 7 "0123456789abcdef" ["noCI"] [] true =
      [Effect.setStatus "0123456789abcdef" "failure" "ci-gate"
        "Remove noCI label to continue" none] :=
  ⟨by decide,
   (noci_label_suppresses_ci "org/repo" 7 "0123456789abcdef" ["noCI"] [] true
     (by decide)).1⟩

/-- C2: a failed collaborator lookup never raises (the embedded function is
total into `Bool`); it behaves exactly like a lookup answering "not a
collaborator", classification falls through to the static allow-list, and
allow-list members are still accepted. -/
theorem whitelist_fallback_on_lookup_error (e wl user : String) :
    userInCiWhitelist (Except.error e) wl user =
      userInCiWhitelist (Except.ok false) wl user ∧
    userInCiWhitelist (Except.error e) wl user =
      (splitOnChar ',' wl).contains user ∧
    ((splitOnChar ',' wl).contains user = true →
      userInCiWhitelist (Except.error e) wl user = true) := by
  exact ⟨rfl, rfl, fun h => h⟩

/-- C2 witness: an allow-listed user is accepted although the lookup errors. -/
theorem whitelist_fallback_on_lookup_error_witness :
    (splitOnChar ',' "alice,bob").contains "alice" = true ∧
    userInCiWhitelist (Except.error "lookup failed") "alice,bob" "alice" =
      true :=
  ⟨by decide,
   (whitelist_fallback_on_lookup_error "lookup failed" "alice,bob"
     "alice").2.2 (by decide)⟩

/-- C10: under the default empty-string configuration, splitting the empty
string on `,` yields `[""]`, so the empty string is a member of both
comma-separated allow-lists: the pipeline allow-list accepts the empty
pipeline name, and the user allow-list accepts the empty username whenever
the collaborator lookup does not grant access (false or error). -/
theorem empty_whitelist_contains_empty_string :
    splitOnChar ',' "" = [""] ∧
    pipelineInPublicLogWhitelist "" "" = true ∧
    userInCiWhitelist (Except.ok false) "" "" = true ∧
    userInCiWhitelist (Except.error "lookup failed") "" "" = true := by
  decide

/-- C3: for an open PR carrying the auto-merge label with `mergeable = true`
and combined status `success`: fewer than 2 individual status entries means
no merge call (indeed no effect at all); 2 or more mean exactly one merge
call with the recorded head SHA, commit message `automerge` and merge
method `rebase`. -/
theorem automerge_success_requires_two_statuses (info : PrInfo)
    (labels : List String) (combined : CombinedStatus)
    (hopen : info.state = "open")
    (hlabel : prHasLabel labels AUTOMERGE_LABEL = true)
    (hm : info.mergeable = some true) (hs : combined.state = "success") :
    (combined.statuses.length < 2 →
      autoMergePullRequest info labels combined = []) ∧
    (2 ≤ combined.statuses.length →
      autoMergePullRequest info labels combined =
        [Effect.merge info.headSha "automerge" "rebase"]) := by
  constructor
  · intro hlen
    simp [autoMergePullRequest, hopen, hlabel, hm, hs, hlen]
  · intro hlen
    simp [autoMergePullRequest, hopen, hlabel, hm, hs, Nat.not_lt.mpr hlen]

/-- C3 witness: with two status entries exactly one merge call is issued;
with one entry none is. -/
theorem automerge_success_requires_two_statuses_witness :
    prHasLabel ["automerge"] AUTOMERGE_LABEL = true ∧
    autoMergePullRequest
      { state := "open", mergeable := some true, headSha := "abc" }
      ["automerge"] { state := "success", statuses := ["ci/a", "ci/b"] } =
      [Effect.merge "abc" "automerge" "rebase"] ∧
    autoMergePullRequest
      { state := "open", mergeable := some true, headSha := "abc" }
      ["automerge"] { state := "success", statuses := ["ci-gate"] } = [] :=
  ⟨by decide,
   (automerge_success_requires_two_statuses _ ["automerge"] _ rfl (by decide)
     rfl rfl).2 (by decide),
   (automerge_success_requires_two_statuses _ ["automerge"] _ rfl (by decide)
     rfl rfl).1 (by decide)⟩

/-- C6: for an open PR carrying the auto-merge label whose `mergeable` field
is the unknown tri-state (`null`), reconciliation issues no effect at all:
no label change, no comment, no status, no merge. -/
theorem automerge_unknown_mergeable_noop (info : PrInfo)
    (labels : List String) (combined : CombinedStatus)
    (hopen : info.state = "open")
    (hlabel : prHasLabel labels AUTOMERGE_LABEL = true)
    (hm : info.mergeable = none) :
    autoMergePullRequest info labels combined = [] := by
  simp [autoMergePullRequest, hopen, hlabel, hm]

/-- C6 witness: concrete unknown-mergeable PR produces no effects. -/
theorem automerge_unknown_mergeable_noop_witness :
    prHasLabel ["automerge"] AUTOMERGE_LABEL = true ∧
    autoMergePullRequest
      { state := "open", mergeable := none, headSha := "abc" }
      ["automerge"] { state := "success", statuses := ["ci/a", "ci/b"] } =
      [] :=
  ⟨by decide,
   automerge_unknown_mergeable_noop _ ["automerge"] _ rfl (by decide) rfl⟩

/-- C7: for an open PR with `mergeable = false`, the conflict comment is
posted exactly when the auto-merge label removal occurred: a pass that finds
the label present removes it and posts exactly one comment, and any pass in
which the label is absent posts zero comments. -/
theorem automerge_conflict_comment_once (info : PrInfo)
    (labels labels2 : List String) (combined : CombinedStatus)
    (hopen : info.state = "open") (hm : info.mergeable = some false)
    (hmem : AUTOMERGE_LABEL ∈ labels) (habsent : AUTOMERGE_LABEL ∉ labels2) :
    autoMergePullRequest info labels combined =
      [Effect.removeLabelCall AUTOMERGE_LABEL,
       Effect.createComment
         ":broken_heart: Unable to automerge due to merge conflict"] ∧
    (autoMergePullRequest info labels2 combined).filter
      Effect.isCreateComment = [] := by
  constructor
  · have hl : prHasLabel labels AUTOMERGE_LABEL = true := prHasLabel_of_mem hmem
    simp [autoMergePullRequest, hopen, hm, hl, removeLabelAsync, hmem,
      prRemoveLabel]
  · cases hl2 : prHasLabel labels2 AUTOMERGE_LABEL with
    | false => simp [autoMergePullRequest, hopen, hm, hl2]
    | true =>
      simp [autoMergePullRequest, hopen, hm, hl2, removeLabelAsync, habsent,
        prRemoveLabel, Effect.isCreateComment]

/-- C7 witness: first pass with the label present posts one comment; a pass
with the label gone posts none. -/
theorem automerge_conflict_comment_once_witness :
    AUTOMERGE_LABEL ∈ ["automerge"] ∧
    autoMergePullRequest
      { state := "open", mergeable := some false, headSha := "abc" }
      ["automerge"] { state := "pending", statuses := [] } =
      [Effect.removeLabelCall AUTOMERGE_LABEL,
       Effect.createComment
         ":broken_heart: Unable to automerge due to merge conflict"] ∧
    (autoMergePullRequest
      { state := "open", mergeable := some false, headSha := "abc" }
      [] { state := "pending", statuses := [] }).filter
      Effect.isCreateComment = [] :=
  ⟨by decide,
   (automerge_conflict_comment_once _ ["automerge"] [] _ rfl rfl (by decide)
     (by decide)).1,
   (automerge_conflict_comment_once _ ["automerge"] [] _ rfl rfl (by decide)
     (by decide)).2⟩

/-- Helper: the coalescing invariant holds at process start. -/
theorem sweepInv_init : SweepInv initSweepState :=
  ⟨by decide, by decide, by decide⟩

/-- Helper: each atomic step of the flag protocol preserves the coalescing
invariant. -/
theorem sweepInv_step (s : SweepState) (h : SweepInv s) (a : SweepAction) :
    SweepInv (sweepStep s a) := by
  obtain ⟨b, p, r, st⟩ := s
  obtain ⟨h1, h2, h3⟩ := h
  cases a with
  | statusEvent =>
    cases b with
    | false =>
      simp_all [SweepInv, sweepStep, statusEventStep]
      omega
    | true => simp_all [SweepInv, sweepStep, statusEventStep]
  | sweepFinish =>
    cases b <;> cases p <;> simp_all [SweepInv, sweepStep, sweepFinishStep]

/-- Helper: the coalescing invariant holds after any trace. -/
theorem sweepInv_run (acts : List SweepAction) (s : SweepState)
    (h : SweepInv s) : SweepInv (sweepRun s acts) := by
  induction acts generalizing s with
  | nil => exact h
  | cons a rest ih => exact ih (sweepStep s a) (sweepInv_step s h a)

/-- C4: on every trace from process start at most one sweep is in flight; a
status event arriving while a sweep is busy only marks `pending` and starts
no sweep itself; whenever `pending` is set in a reachable state, the
completion of the in-flight sweep launches exactly one follow-up sweep (so
the event is honored); and on the burst trace — five status events arriving
while a sweep is in progress — exactly 2 sweeps total are started, never 5. -/
theorem sweep_coalescing (acts : List SweepAction) :
    (sweepRun initSweepState acts).running ≤ 1 ∧
    (∀ s : SweepState, s.busy = true →
      (statusEventStep s).pending = true ∧
      (statusEventStep s).started = s.started) ∧
    ((sweepRun initSweepState acts).pending = true →
      (sweepFinishStep (sweepRun initSweepState acts)).started =
        (sweepRun initSweepState acts).started + 1) ∧
    (sweepRun initSweepState burstTrace).started = 2 := by
  obtain ⟨h1, h2, h3⟩ := sweepInv_run acts initSweepState sweepInv_init
  refine ⟨h1, ?_, ?_, by decide⟩
  · intro s hb
    simp [statusEventStep, hb]
  · intro hp
    have hr : (sweepRun initSweepState acts).running = 1 := h2.mp (h3 hp)
    simp [sweepFinishStep, hr, hp]

/-- C4 witness: after two status events a sweep is busy with `pending` set,
and the sweep's completion starts exactly one follow-up sweep; an event
during a busy sweep marks `pending`. -/
theorem sweep_coalescing_witness :
    (sweepRun initSweepState
      [SweepAction.statusEvent, SweepAction.statusEvent]).pending = true ∧
    (sweepFinishStep (sweepRun initSweepState
      [SweepAction.statusEvent, SweepAction.statusEvent])).started =
      (sweepRun initSweepState
        [SweepAction.statusEvent, SweepAction.statusEvent]).started + 1 ∧
    (statusEventStep
      { busy := true, pending := false, running := 1, started := 1 }).pending =
      true :=
  ⟨by decide,
   (sweep_coalescing
     [SweepAction.statusEvent, SweepAction.statusEvent]).2.2.1 (by decide),
   ((sweep_coalescing []).2.1
     { busy := true, pending := false, running := 1, started := 1 }
     (by decide)).1⟩

/-- C5 (code-bug evidence): `builds/42` is recognized and the status is
rewritten to the same-origin proxy URL; `builds/abc` is not recognized and
nothing is posted; a repository in the public-pipeline allow-set is never
rewritten even for a matching URL; but `builds/1[` — neither a positive
integer nor a `latest/` alias — is also recognized (with a NaN build
number), because the character class written `[1-9[0-9]+` in the source
regex (line 319) contains every digit and the literal `[` instead of
denoting a positive integer. -/
theorem publog_url_recognizer_cases :
    isBuildkitePublicLogUrl "solana-labs"
      (some "https://buildkite.com/solana-labs/solana/builds/42") =
      some { pipeline := "solana",
             buildNumber := BuildNumber.num (some 42) } ∧
    statusUpdateRewrite [] "https://gate.example" "solana-labs"
      ⟨"ctx", "desc", "org/repo", "org/repo", "abc123", "success",
        some "https://buildkite.com/solana-labs/solana/builds/42"⟩ =
      [Effect.setStatus "abc123" "success" "ctx" "desc"
        (some
          "https://gate.example/buildkite_public_log?https://buildkite.com/solana-labs/solana/builds/42")] ∧
    isBuildkitePublicLogUrl "solana-labs"
      (some "https://buildkite.com/solana-labs/solana/builds/abc") = none ∧
    statusUpdateRewrite [] "https://gate.example" "solana-labs"
      ⟨"ctx", "desc", "org/repo", "org/repo", "abc123", "success",
        some "https://buildkite.com/solana-labs/solana/builds/abc"⟩ = [] ∧
    statusUpdateRewrite ["org/repo"] "https://gate.example" "solana-labs"
      ⟨"ctx", "desc", "org/repo", "org/repo", "abc123", "success",
        some "https://buildkite.com/solana-labs/solana/builds/42"⟩ = [] ∧
    isBuildkitePublicLogUrl "solana-labs"
      (some "https://buildkite.com/solana-labs/solana/builds/1[") =
      some { pipeline := "solana", buildNumber := BuildNumber.num none } := by
  decide

/-- C8: removing an already-absent label yields `Except.ok false` — "no
removal occurred" — and `prRemoveLabel` never returns an error to its
caller, whatever the removal call produced. -/
theorem remove_absent_label_no_removal_no_error (labels : List String)
    (name : String) (h : name ∉ labels) :
    prRemoveLabel (removeLabelAsync labels name) = Except.ok false ∧
    (∀ r : Except String Unit, ∃ b, prRemoveLabel r = Except.ok b) := by
  constructor
  · simp [removeLabelAsync, prRemoveLabel, h]
  · intro r
    cases r with
    | ok _ => exact ⟨true, rfl⟩
    | error _ => exact ⟨false, rfl⟩

/-- C8 witness: removing the `CI` label from a PR with no labels. -/
theorem remove_absent_label_no_removal_no_error_witness :
    "CI" ∉ ([] : List String) ∧
    prRemoveLabel (removeLabelAsync [] "CI") = Except.ok false :=
  ⟨by decide,
   (remove_absent_label_no_removal_no_error [] "CI" (by decide)).1⟩

/-- C9 counterexample: a removal failure whose reason is a network error
("ECONNRESET", which is not "Label does not exist") does not propagate to
the caller: the unconditional catch in `prRemoveLabel` (lines 296-305)
swallows it and returns `false`. -/
theorem remove_label_network_error_swallowed :
    prRemoveLabel (Except.error "ECONNRESET") = Except.ok false ∧
    prRemoveLabel (Except.error "ECONNRESET") ≠
      Except.error "ECONNRESET" ∧
    "ECONNRESET" ≠ "Label does not exist" :=
  ⟨rfl, fun hc => Except.noConfusion hc, by decide⟩

/-- C9 amended: every label-removal failure, whatever its reason, is caught
inside `prRemoveLabel` and surfaced to the caller as the return value
`false` ("no removal occurred"); no removal error ever propagates to the
caller, hence none reaches the per-event top-level handler. -/
theorem remove_label_failures_all_benign (e : String)
    (r : Except String Unit) :
    prRemoveLabel (Except.error e) = Except.ok false ∧
    ∃ b, prRemoveLabel r = Except.ok b := by
  refine ⟨rfl, ?_⟩
  cases r with
  | ok _ => exact ⟨true, rfl⟩
  | error _ => exact ⟨false, rfl⟩

end CiGate
